import Mathlib

/-!
Shallow embedding of the channel-multiplexing read task of
`openssh-mux-client` (`crates/proxy-client/src/proxy_client/read_task.rs`)
together with proofs about the claims of its specification.

The per-channel state, the window controller, the pending-request tracker
and the frame dispatch are translated function by function from
`read_task.rs`.  Collaborators that live outside the visible source
(`channel.rs`, the serializer, the error enum) are modelled from the spec;
each such definition carries a doc comment saying so.  Effects on those
collaborators (pushing payload bytes into a sink, marking a sink
end-of-stream, handing a serialized window-adjust frame to the write path,
reporting a batch completion) are recorded in an event log, which is the
interface the spec describes for them.
-/

set_option autoImplicit false

namespace ProxyClient

/-- `u32::MAX`. -/
def u32max : Nat := 2 ^ 32 - 1

/-- Number of values of `usize` (64-bit); the sender-window counter has this
width. -/
def usizeSize : Nat := 2 ^ 64

/-- `bytes::Bytes` payload.  The read task never inspects payload contents:
it only calls `bytes.len()` and hands the value to `push_bytes`, so a
payload is embedded by its length. -/
structure Bytes where
  len : Nat
  deriving DecidableEq

/-- Modelled from the spec: `Completion` is declared in
`proxy_client/channel.rs`, which is not part of the visible source; the
spec describes the aggregated batch outcome as success/failure. -/
inductive Completion
  | Success
  | Failed
  deriving DecidableEq

/-- Modelled from the spec: `ExtendedDataType` is declared in
`crates/proxy-client/src/response.rs`, which is not part of the visible
source.  The spec lists `Stderr` as the extended-data type; the dispatch in
`read_task.rs` tests `if let ExtendedDataType::Stderr = data_type` with a
refutable pattern, so the type is embedded with `Stderr` plus an abstract
non-`Stderr` case standing for every other type value. -/
inductive ExtendedDataType
  | Stderr
  | NonStderr
  deriving DecidableEq

/-- Modelled from the spec: the error enum lives in the
`openssh_proxy_client_error` crate, outside the visible source.  The
constructors are the ones `read_task.rs` names, plus the "unknown channel"
error of `SharedData::get_channel_data` and the double-resolution error of
`set_channel_open_res` described in the spec (§4.4, §6). -/
inductive Error
  | InvalidSenderChannel (channel_id : Nat)
  | DuplicateSenderChannel (channel_id : Nat)
  | UnexpectedRequestResponse
  | UnexpectedChannelState
  | UnknownRecipientChannel (channel_id : Nat)
  | ChannelAlreadyResolved (channel_id : Nat)
  deriving DecidableEq

/-- Modelled from the spec: result of resolving a channel-open request
(`OpenChannelRes` in `channel.rs`): `Confirmed(max_packet_size)` or
`Failed`. -/
inductive OpenChannelRes
  | Confirmed (max_packet_size : Nat)
  | OpenFailed
  deriving DecidableEq

/-- Modelled from the spec: the settle-once open state of a channel
(`ChannelState` in `channel.rs`).  While the open request is outstanding it
carries `OpenChannelRequestedInner { init_receiver_win_size,
extend_window_size }`; it is settled exactly once, and a second attempt to
settle is an error. -/
inductive ChannelOpenSt
  | OpeningRequested (init_receiver_win_size : Nat) (extend_window_size : Nat)
  | Resolved (res : OpenChannelRes)
  deriving DecidableEq

/-- Modelled from the spec: the per-channel shared descriptor
(`ChannelDataArenaArc` target in `channel.rs`), jointly owned by the write
path and the dispatch loop.  `sender_window_size` is a usize counter
increased atomically; `receivers_count` is an atomic the dispatch loop only
loads; `pending_requests_count` is the outstanding-request snapshot that
`retrieve_pending_requests` returns (a `NonZeroUsize` option, so a stored
count is positive); `has_rx` / `has_stderr` record whether the optional
payload sinks are present. -/
structure SharedChannelData where
  sender_window_size : Nat
  receivers_count : Nat
  pending_requests_count : Option Nat
  open_st : ChannelOpenSt
  has_rx : Bool
  has_stderr : Bool
  deriving DecidableEq

instance : Inhabited SharedChannelData :=
  ⟨{ sender_window_size := 0, receivers_count := 0, pending_requests_count := none,
     open_st := ChannelOpenSt.OpeningRequested 0 0, has_rx := false, has_stderr := false }⟩

/-- `PendingRequests` from `read_task.rs`: `pending : Option<NonZeroUsize>`
(a stored count is positive by construction) and `has_failed`. -/
structure PendingRequests where
  pending : Option Nat
  has_failed : Bool
  deriving DecidableEq

/-- A payload sink (`Arc<MpscBytesChannel>`) is identified by the arena
slot of the channel owning it and a flag that is `true` for `rx`, `false`
for `stderr`. -/
abbrev SinkId := Nat × Bool

/-- `ChannelIngoingData` from `read_task.rs`.  The
`outgoing_data_arena_arc` back-reference is embedded as the arena slot it
points at (`ChannelDataArenaArc::slot`). -/
structure ChannelIngoingData where
  outgoing_slot : Nat
  receiver_win_size : Nat
  extend_window_size : Nat
  pending_requests : PendingRequests
  rx : Option SinkId
  stderr : Option SinkId
  deriving DecidableEq

/-- Observable effects of the dispatch loop on its collaborators: pushing
payload to a sink, marking a sink end-of-stream, handing a serialized
window-adjust frame `{recipient_channel, amount}` to the write path, and
reporting a batch completion to the shared descriptor. -/
inductive Event
  | PushBytes (sink : SinkId) (bytes : Bytes)
  | MarkEof (sink : SinkId)
  | WriteAdjustWindow (recipient_channel : Nat) (amount : Nat)
  | ReportCompletion (slot : Nat) (completion : Completion)
  deriving DecidableEq

/-- The state the read task owns or reaches through shared handles:
the arena of shared channel descriptors keyed by recipient (slot) id
(`SharedData`), the local registry `ingoing_channel_map` keyed by sender
id, and the log of emitted effects. -/
structure ReadTaskState where
  arena : List (Nat × SharedChannelData)
  ingoing_channel_map : List (Nat × ChannelIngoingData)
  events : List Event
  deriving DecidableEq

/-- Association-list lookup, the embedding of `HashMap::get`. -/
def lookupA {α : Type} : List (Nat × α) → Nat → Option α
  | [], _ => none
  | (k', v) :: rest, k => if k' = k then some v else lookupA rest k

/-- Association-list in-place update of an existing key, the embedding of
writing through `HashMap::get_mut`. -/
def updateA {α : Type} : List (Nat × α) → Nat → α → List (Nat × α)
  | [], _, _ => []
  | (k', v') :: rest, k, v =>
    if k' = k then (k', v) :: rest else (k', v') :: updateA rest k v

/-- Association-list removal, the embedding of `HashMap::remove` (keys are
unique in a `HashMap`, so removing every binding of the key is the same
operation). -/
def eraseA {α : Type} : List (Nat × α) → Nat → List (Nat × α)
  | [], _ => []
  | (k', v') :: rest, k => if k' = k then eraseA rest k else (k', v') :: eraseA rest k

/-- Dereference a `ChannelDataArenaArc` by its slot.  The `Arc` keeps its
target alive, so in every state this model reaches the slot is present and
the default is never read. -/
def arenaGet (st : ReadTaskState) (slot : Nat) : SharedChannelData :=
  (lookupA st.arena slot).getD default

/-- `get_ingoing_data` from `read_task.rs`. -/
def get_ingoing_data (hashmap : List (Nat × ChannelIngoingData)) (channel_id : Nat) :
    Except Error ChannelIngoingData :=
  match lookupA hashmap channel_id with
  | some data => Except.ok data
  | none => Except.error (Error.InvalidSenderChannel channel_id)

/-- `bytes.len().try_into().unwrap_or(u32::MAX)`: the `u32` byte count of a
payload, saturating at `u32::MAX`. -/
def cntOfLen (len : Nat) : Nat :=
  if len ≤ u32max then len else u32max

/-- `handle_incoming_data` from `read_task.rs`.  An error return carries
the state at the moment the `?` fired, since mutations made before an
error persist.  The serialization of `ChannelAdjustWindow` into the reused
buffer and the hand-off of the frozen bytes to
`shared_data.get_write_channel()` are recorded as one
`WriteAdjustWindow` event. -/
def handle_incoming_data (st : ReadTaskState) (recipient_channel : Nat)
    (bytes : Bytes) (is_rx : Bool) : Except (ReadTaskState × Error) ReadTaskState :=
  match lookupA st.ingoing_channel_map recipient_channel with
  | none => Except.error (st, Error.InvalidSenderChannel recipient_channel)
  | some data =>
    let cnt : Nat := cntOfLen bytes.len
    let data_receiver_channel := if is_rx then data.rx else data.stderr
    let st1 : ReadTaskState :=
      match data_receiver_channel with
      | some sink => { st with events := st.events ++ [Event.PushBytes sink bytes] }
      | none => st
    -- receiver_win_size.saturating_sub(cnt): both operands are u32 values,
    -- so truncated Nat subtraction is exactly the saturating u32 subtraction
    let win1 : Nat := data.receiver_win_size - cnt
    let outgoing := arenaGet st1 data.outgoing_slot
    if win1 = 0 ∧ outgoing.receivers_count ≠ 0 then
      let st2 := { st1 with
        events := st1.events ++ [Event.WriteAdjustWindow data.outgoing_slot data.extend_window_size] }
      let data2 := { data with receiver_win_size := data.extend_window_size }
      Except.ok { st2 with ingoing_channel_map := updateA st2.ingoing_channel_map recipient_channel data2 }
    else
      let data2 := { data with receiver_win_size := win1 }
      Except.ok { st1 with ingoing_channel_map := updateA st1.ingoing_channel_map recipient_channel data2 }

/-- `mark_eof` from `read_task.rs`: `take` each sink option and mark the
taken sink end-of-stream.  Returns the updated ingoing data and the
`MarkEof` effects. -/
def mark_eof (data : ChannelIngoingData) : ChannelIngoingData × List Event :=
  let evs1 : List Event :=
    match data.rx with
    | some sink => [Event.MarkEof sink]
    | none => []
  let evs2 : List Event :=
    match data.stderr with
    | some sink => [Event.MarkEof sink]
    | none => []
  ({ data with rx := none, stderr := none }, evs1 ++ evs2)

/-- `handle_request_response` from `read_task.rs`.  The
`retrieve_pending_requests` call on the shared descriptor is modelled from
the spec as reading the descriptor's outstanding-request snapshot;
`report_request_completion` is recorded as a `ReportCompletion` event.
`NonZeroUsize::new(pending.get() - 1)` becomes `none` exactly when the
decremented count is zero. -/
def handle_request_response (st : ReadTaskState) (recipient_channel : Nat)
    (success : Bool) : Except (ReadTaskState × Error) ReadTaskState :=
  match lookupA st.ingoing_channel_map recipient_channel with
  | none => Except.error (st, Error.InvalidSenderChannel recipient_channel)
  | some data =>
    let data1 :=
      if data.pending_requests.pending = none then
        { data with pending_requests :=
            { pending := (arenaGet st data.outgoing_slot).pending_requests_count
              has_failed := false } }
      else data
    match data1.pending_requests.pending with
    | none =>
        Except.error
          ({ st with ingoing_channel_map := updateA st.ingoing_channel_map recipient_channel data1 },
           Error.UnexpectedRequestResponse)
    | some n =>
      let newPending : Option Nat := if n - 1 = 0 then none else some (n - 1)
      let data2 := { data1 with pending_requests :=
          { pending := newPending
            has_failed := data1.pending_requests.has_failed || !success } }
      let st2 := { st with ingoing_channel_map := updateA st.ingoing_channel_map recipient_channel data2 }
      if newPending = none then
        let completion :=
          if data2.pending_requests.has_failed then Completion.Failed else Completion.Success
        Except.ok { st2 with events := st2.events ++ [Event.ReportCompletion data2.outgoing_slot completion] }
      else
        Except.ok st2

/-- `ChannelResponse` from `crates/proxy-client/src/response.rs` (not part
of the visible source); the variants and their payloads are the ones the
spec enumerates in §4.1 and the dispatch match in `read_task.rs` consumes. -/
inductive ChannelResponse
  | OpenConfirmation (sender_channel : Nat) (init_win_size : Nat) (max_packet_size : Nat)
  | OpenFailure
  | Close
  | BytesAdjust (bytes_to_add : Nat)
  | Data (bytes : Bytes)
  | ExtendedData (data_type : ExtendedDataType) (data : Bytes)
  | Eof
  | RequestSuccess
  | RequestFailure
  deriving DecidableEq

/-- The dispatch `match` of `create_read_task_inner` for one decoded
channel-scoped response, translated arm by arm from `read_task.rs`.
`SharedData::get_channel_data` and `set_channel_open_res` are modelled
from the spec (arena lookup with an "unknown channel" error; settle-once
cell whose second settlement is an error). -/
def dispatch_channel_response (st : ReadTaskState) (recipient_channel : Nat)
    (channel_response : ChannelResponse) : Except (ReadTaskState × Error) ReadTaskState :=
  match channel_response with
  | ChannelResponse.OpenConfirmation sender_channel init_win_size max_packet_size =>
    match lookupA st.arena recipient_channel with
    | none => Except.error (st, Error.UnknownRecipientChannel recipient_channel)
    | some sh =>
      -- sender_window_size.add(init_win_size)
      let sh1 := { sh with sender_window_size := sh.sender_window_size + init_win_size }
      let st1 := { st with arena := updateA st.arena recipient_channel sh1 }
      match sh1.open_st with
      | ChannelOpenSt.Resolved _ =>
        Except.error (st1, Error.ChannelAlreadyResolved recipient_channel)
      | ChannelOpenSt.OpeningRequested init_receiver_win_size extend_window_size =>
        let sh2 := { sh1 with open_st := ChannelOpenSt.Resolved (OpenChannelRes.Confirmed max_packet_size) }
        let st2 := { st1 with arena := updateA st1.arena recipient_channel sh2 }
        let ingoing_data : ChannelIngoingData :=
          { outgoing_slot := recipient_channel
            receiver_win_size := init_receiver_win_size
            extend_window_size := extend_window_size
            pending_requests := { pending := none, has_failed := false }
            rx := if sh2.has_rx then some (recipient_channel, true) else none
            stderr := if sh2.has_stderr then some (recipient_channel, false) else none }
        match lookupA st2.ingoing_channel_map sender_channel with
        | some _ => Except.error (st2, Error.DuplicateSenderChannel sender_channel)
        | none =>
          Except.ok { st2 with
            ingoing_channel_map := (sender_channel, ingoing_data) :: st2.ingoing_channel_map }
  | ChannelResponse.OpenFailure =>
    match lookupA st.arena recipient_channel with
    | none => Except.error (st, Error.UnknownRecipientChannel recipient_channel)
    | some sh =>
      match sh.open_st with
      | ChannelOpenSt.Resolved _ =>
        Except.error (st, Error.ChannelAlreadyResolved recipient_channel)
      | ChannelOpenSt.OpeningRequested _ _ =>
        Except.ok { st with
          arena := updateA st.arena recipient_channel
            { sh with open_st := ChannelOpenSt.Resolved OpenChannelRes.OpenFailed } }
  | ChannelResponse.Close =>
    match lookupA st.ingoing_channel_map recipient_channel with
    | none => Except.error (st, Error.InvalidSenderChannel recipient_channel)
    | some data =>
      let st1 := { st with ingoing_channel_map := eraseA st.ingoing_channel_map recipient_channel }
      let marked := mark_eof data
      Except.ok { st1 with events := st1.events ++ marked.2 }
  | ChannelResponse.BytesAdjust bytes_to_add =>
    match lookupA st.ingoing_channel_map recipient_channel with
    | none => Except.error (st, Error.InvalidSenderChannel recipient_channel)
    | some data =>
      let sh := arenaGet st data.outgoing_slot
      Except.ok { st with
        arena := updateA st.arena data.outgoing_slot
          { sh with sender_window_size := sh.sender_window_size + bytes_to_add } }
  | ChannelResponse.Data bytes => handle_incoming_data st recipient_channel bytes true
  | ChannelResponse.ExtendedData data_type data =>
    match data_type with
    | ExtendedDataType.Stderr => handle_incoming_data st recipient_channel data false
    | ExtendedDataType.NonStderr => Except.ok st
  | ChannelResponse.Eof =>
    match lookupA st.ingoing_channel_map recipient_channel with
    | none => Except.error (st, Error.InvalidSenderChannel recipient_channel)
    | some data =>
      let marked := mark_eof data
      Except.ok { st with
        ingoing_channel_map := updateA st.ingoing_channel_map recipient_channel marked.1
        events := st.events ++ marked.2 }
  | ChannelResponse.RequestSuccess => handle_request_response st recipient_channel true
  | ChannelResponse.RequestFailure => handle_request_response st recipient_channel false

/-- A decoded top-level response: either channel-scoped, or one of the
connection-scoped variants, which the read task rejects. -/
inductive Response
  | ChannelResponse (recipient_channel : Nat) (channel_response : ChannelResponse)
  | ConnectionScoped
  deriving DecidableEq

/-- How one iteration of `create_read_task_inner` ends after the first
frame has been decoded: with `return Err(..)`, or at the `todo!()` on the
line after the dispatch `match` (the loop continuation is not
implemented in the source). -/
inductive TaskOutcome
  | TaskFailed (e : Error)
  | UnimplementedTodo
  deriving DecidableEq

/-- `create_read_task_inner` from `read_task.rs`, after the frame codec
has produced the first decoded response: a non-channel response returns
`Error::UnexpectedChannelState`; a dispatch error is returned (aborting
the task with that failure value); after a successful dispatch control
reaches the trailing `todo!()`. -/
def create_read_task_inner (st : ReadTaskState) (response : Response) : TaskOutcome :=
  match response with
  | Response.ChannelResponse recipient_channel channel_response =>
    match dispatch_channel_response st recipient_channel channel_response with
    | Except.error (_, e) => TaskOutcome.TaskFailed e
    | Except.ok _ => TaskOutcome.UnimplementedTodo
  | Response.ConnectionScoped => TaskOutcome.TaskFailed Error.UnexpectedChannelState

/-- Is this event a window-adjust frame handed to the write path? -/
def Event.isAdjust : Event → Bool
  | Event.WriteAdjustWindow _ _ => true
  | _ => false

/-- Is this event a batch-completion report to the shared descriptor? -/
def Event.isCompletion : Event → Bool
  | Event.ReportCompletion _ _ => true
  | _ => false

/-- Is this event an end-of-stream marking of a sink? -/
def Event.isMarkEof : Event → Bool
  | Event.MarkEof _ => true
  | _ => false

/-- The window-adjust frames in an event log, oldest first. -/
def adjustEvents (evs : List Event) : List Event :=
  evs.filter Event.isAdjust

/-- The batch-completion reports in an event log, oldest first. -/
def completionEvents (evs : List Event) : List Event :=
  evs.filter Event.isCompletion

/-- The end-of-stream markings in an event log, oldest first. -/
def markEofEvents (evs : List Event) : List Event :=
  evs.filter Event.isMarkEof

/-- Total number of payload bytes pushed to one sink. -/
def pushedTo (sink : SinkId) (evs : List Event) : Nat :=
  (evs.map fun e =>
    match e with
    | Event.PushBytes s b => if s = sink then b.len else 0
    | _ => 0).sum

/-- Dispatch a sequence of decoded channel-scoped responses in order, the
way the read loop feeds them to `dispatch_channel_response`, stopping at
the first error. -/
def processResponses :
    ReadTaskState → List (Nat × ChannelResponse) → Except (ReadTaskState × Error) ReadTaskState
  | st, [] => Except.ok st
  | st, (ch, r) :: rest =>
    match dispatch_channel_response st ch r with
    | Except.error e => Except.error e
    | Except.ok st' => processResponses st' rest

/-- Feed a sequence of `Data` payloads for one channel through
`handle_incoming_data`, stopping at the first error. -/
def processDataFrames (ch : Nat) :
    ReadTaskState → List Bytes → Except (ReadTaskState × Error) ReadTaskState
  | st, [] => Except.ok st
  | st, b :: rest =>
    match handle_incoming_data st ch b true with
    | Except.error e => Except.error e
    | Except.ok st' => processDataFrames ch st' rest

/-- Feed a sequence of request responses (`true` for `RequestSuccess`,
`false` for `RequestFailure`) for one channel through
`handle_request_response`, stopping at the first error. -/
def processRequestResponses (ch : Nat) :
    ReadTaskState → List Bool → Except (ReadTaskState × Error) ReadTaskState
  | st, [] => Except.ok st
  | st, b :: rest =>
    match handle_request_response st ch b with
    | Except.error e => Except.error e
    | Except.ok st' => processRequestResponses ch st' rest

/-- The final state of a successful run, `none` if the run returned an
error. -/
def okState (r : Except (ReadTaskState × Error) ReadTaskState) : Option ReadTaskState :=
  match r with
  | Except.ok st => some st
  | Except.error _ => none

/-- The `PushBytes` effects one `handle_incoming_data` call produces: one
push if the selected sink is present, none otherwise. -/
def sinkEvents (data : ChannelIngoingData) (is_rx : Bool) (bytes : Bytes) : List Event :=
  match (if is_rx then data.rx else data.stderr) with
  | some sink => [Event.PushBytes sink bytes]
  | none => []

/-- `noOvershoot E win lens` holds when each consumption in `lens` fits
inside the receiver budget remaining at that point, the budget being
refilled to `E` whenever it is exhausted.  Under this condition the
saturating subtraction in `handle_incoming_data` never truncates. -/
def noOvershoot (E : Nat) : Nat → List Nat → Bool
  | _, [] => true
  | win, c :: rest =>
    decide (c ≤ win) && noOvershoot E (if win - c = 0 then E else win - c) rest

/-- Well-formedness of a shared descriptor: the window parameters stored
for a still-opening channel are `u32` values. -/
def wfShared (sh : SharedChannelData) : Bool :=
  match sh.open_st with
  | ChannelOpenSt.OpeningRequested irw ews => decide (irw ≤ u32max) && decide (ews ≤ u32max)
  | ChannelOpenSt.Resolved _ => true

/-- Well-formedness of per-channel ingoing data: both window fields are
`u32` values. -/
def wfData (d : ChannelIngoingData) : Bool :=
  decide (d.receiver_win_size ≤ u32max) && decide (d.extend_window_size ≤ u32max)

/-- Well-formedness of the whole read-task state: every registered channel
and every arena entry is well-formed. -/
def wfState (st : ReadTaskState) : Bool :=
  st.ingoing_channel_map.all (fun p => wfData p.2) && st.arena.all (fun p => wfShared p.2)

/-- Shared descriptor of the spec §8 end-to-end scenario: one live
consumer, an `rx` sink present, the channel already confirmed. -/
def scenarioShared : SharedChannelData :=
  { sender_window_size := 0
    receivers_count := 1
    pending_requests_count := none
    open_st := ChannelOpenSt.Resolved (OpenChannelRes.Confirmed 32768)
    has_rx := true
    has_stderr := false }

/-- State of the spec §8 end-to-end scenario: the channel is registered
under sender id 5 with arena slot 7, `receiver_win_size = 65536`,
`extend_window_size = 32768`. -/
def scenarioState : ReadTaskState :=
  { arena := [(7, scenarioShared)]
    ingoing_channel_map := [(5,
      { outgoing_slot := 7
        receiver_win_size := 65536
        extend_window_size := 32768
        pending_requests := { pending := none, has_failed := false }
        rx := some (7, true)
        stderr := none })]
    events := [] }

/-- Shared descriptor used by the concrete witness states: one live
consumer, two outstanding requests, both sinks present. -/
def exShared : SharedChannelData :=
  { sender_window_size := 100
    receivers_count := 1
    pending_requests_count := some 2
    open_st := ChannelOpenSt.Resolved (OpenChannelRes.Confirmed 32768)
    has_rx := true
    has_stderr := true }

/-- Ingoing data of the witness channel: arena slot 7, both sinks present,
`receiver_win_size = extend_window_size = 32768`. -/
def exData : ChannelIngoingData :=
  { outgoing_slot := 7
    receiver_win_size := 32768
    extend_window_size := 32768
    pending_requests := { pending := none, has_failed := false }
    rx := some (7, true)
    stderr := some (7, false) }

/-- Witness state: the witness channel registered under sender id 5. -/
def exState : ReadTaskState :=
  { arena := [(7, exShared)]
    ingoing_channel_map := [(5, exData)]
    events := [] }

/-- Witness state with no live consumer (`receivers_count = 0`). -/
def exStateNoRecv : ReadTaskState :=
  { exState with arena := [(7, { exShared with receivers_count := 0 })] }

/-- The empty read-task state: nothing registered, nothing in the arena. -/
def emptyState : ReadTaskState :=
  { arena := [], ingoing_channel_map := [], events := [] }

/-- Witness state for channel opening: arena slot 3 holds a channel whose
open request is outstanding with window parameters 1000/500, and sender
id 9 is already registered. -/
def exOpenState : ReadTaskState :=
  { arena := [(3,
      { sender_window_size := 0
        receivers_count := 0
        pending_requests_count := none
        open_st := ChannelOpenSt.OpeningRequested 1000 500
        has_rx := true
        has_stderr := false })]
    ingoing_channel_map := [(9,
      { outgoing_slot := 3
        receiver_win_size := 1000
        extend_window_size := 500
        pending_requests := { pending := none, has_failed := false }
        rx := none
        stderr := none })]
    events := [] }

/-! Theorems.  Helper lemmas about the association-list operations and the
event observers come first, then one theorem (with its witness or
counterexample) per specification claim. -/

theorem lookupA_updateA_self {α : Type} (m : List (Nat × α)) (k : Nat) (v d : α)
    (h : lookupA m k = some d) : lookupA (updateA m k v) k = some v := by
  induction m with
  | nil => simp [lookupA] at h
  | cons p rest ih =>
    obtain ⟨k', v'⟩ := p
    by_cases hk : k' = k
    · simp [lookupA, updateA, hk]
    · simp only [lookupA, updateA, if_neg hk] at h ⊢
      exact ih h

theorem lookupA_updateA_ne {α : Type} (m : List (Nat × α)) (k k' : Nat) (v : α)
    (h : k' ≠ k) : lookupA (updateA m k v) k' = lookupA m k' := by
  induction m with
  | nil => simp [lookupA, updateA]
  | cons p rest ih =>
    obtain ⟨k₀, v₀⟩ := p
    by_cases hk : k₀ = k
    · subst hk
      simp [updateA, lookupA, Ne.symm h]
    · simp only [updateA, if_neg hk, lookupA]
      by_cases hk' : k₀ = k'
      · simp [hk']
      · simp [hk', ih]

theorem lookupA_eraseA_self {α : Type} (m : List (Nat × α)) (k : Nat) :
    lookupA (eraseA m k) k = none := by
  induction m with
  | nil => simp [lookupA, eraseA]
  | cons p rest ih =>
    obtain ⟨k', v'⟩ := p
    by_cases hk : k' = k
    · simp [eraseA, hk, ih]
    · simp [eraseA, lookupA, hk, ih]

theorem adjustEvents_append (a b : List Event) :
    adjustEvents (a ++ b) = adjustEvents a ++ adjustEvents b := by
  simp [adjustEvents]

theorem completionEvents_append (a b : List Event) :
    completionEvents (a ++ b) = completionEvents a ++ completionEvents b := by
  simp [completionEvents]

theorem markEofEvents_append (a b : List Event) :
    markEofEvents (a ++ b) = markEofEvents a ++ markEofEvents b := by
  simp [markEofEvents]

theorem pushedTo_append (s : SinkId) (a b : List Event) :
    pushedTo s (a ++ b) = pushedTo s a + pushedTo s b := by
  simp [pushedTo]

theorem adjustEvents_sinkEvents (data : ChannelIngoingData) (is_rx : Bool) (bytes : Bytes) :
    adjustEvents (sinkEvents data is_rx bytes) = [] := by
  unfold sinkEvents
  cases h : (if is_rx then data.rx else data.stderr) with
  | none => simp [adjustEvents]
  | some s => simp [adjustEvents, Event.isAdjust]

/-- Unfolding equation for `handle_incoming_data` on a registered channel:
the arena is untouched, the pushed payload and (on budget exhaustion with
a live consumer) the window-adjust frame are appended to the event log,
and the registered data's window is updated. -/
theorem handle_incoming_data_eq (st : ReadTaskState) (ch : Nat)
    (data : ChannelIngoingData) (bytes : Bytes) (is_rx : Bool)
    (h : lookupA st.ingoing_channel_map ch = some data) :
    handle_incoming_data st ch bytes is_rx =
      (if data.receiver_win_size - cntOfLen bytes.len = 0 ∧
          (arenaGet st data.outgoing_slot).receivers_count ≠ 0 then
        Except.ok
          { arena := st.arena
            ingoing_channel_map := updateA st.ingoing_channel_map ch
              { data with receiver_win_size := data.extend_window_size }
            events := st.events ++ sinkEvents data is_rx bytes ++
              [Event.WriteAdjustWindow data.outgoing_slot data.extend_window_size] }
      else
        Except.ok
          { arena := st.arena
            ingoing_channel_map := updateA st.ingoing_channel_map ch
              { data with receiver_win_size := data.receiver_win_size - cntOfLen bytes.len }
            events := st.events ++ sinkEvents data is_rx bytes }) := by
  unfold handle_incoming_data sinkEvents
  rw [h]
  dsimp only
  cases hsink : (if is_rx then data.rx else data.stderr) with
  | none => simp [arenaGet]
  | some s => simp [arenaGet]

/-- Receiver-budget bookkeeping of a run of `Data` frames on one channel
when a consumer is present: provided the quantum `E` is a positive `u32`
value, the current budget is positive and no consumption overshoots the
remaining budget, the run succeeds and the number of window-adjust frames
it emits is `(total + E - budget) / E`. -/
theorem processDataFrames_adjust (E : Nat) (hE : 0 < E) (hEmax : E ≤ u32max) :
    ∀ (frames : List Bytes) (st : ReadTaskState) (ch : Nat) (data : ChannelIngoingData),
      lookupA st.ingoing_channel_map ch = some data →
      (arenaGet st data.outgoing_slot).receivers_count ≠ 0 →
      data.extend_window_size = E →
      0 < data.receiver_win_size →
      data.receiver_win_size ≤ u32max →
      noOvershoot E data.receiver_win_size (frames.map Bytes.len) = true →
      ∃ st', processDataFrames ch st frames = Except.ok st' ∧
        (adjustEvents st'.events).length =
          (adjustEvents st.events).length +
            ((frames.map Bytes.len).sum + E - data.receiver_win_size) / E := by
  intro frames
  induction frames with
  | nil =>
    intro st ch data _ _ _ hpos _ _
    refine ⟨st, rfl, ?_⟩
    have h0 : (([] : List Bytes).map Bytes.len).sum + E - data.receiver_win_size < E := by
      simp only [List.map_nil, List.sum_nil]
      omega
    rw [Nat.div_eq_of_lt h0]
    omega
  | cons b rest ih =>
    intro st ch data hl hrecv hext hpos hmax hns
    simp only [List.map_cons, noOvershoot, Bool.and_eq_true, decide_eq_true_eq] at hns
    obtain ⟨hble, hns'⟩ := hns
    have hcnt : cntOfLen b.len = b.len := by
      unfold cntOfLen
      rw [if_pos (le_trans hble hmax)]
    simp only [processDataFrames]
    rw [handle_incoming_data_eq st ch data b true hl, hcnt]
    by_cases hz : data.receiver_win_size - b.len = 0
    · -- the consumption exhausts the budget: adjust frame emitted, refill to E
      rw [if_pos ⟨hz, hrecv⟩]
      have hlen : b.len = data.receiver_win_size := by omega
      set st2 : ReadTaskState :=
        { arena := st.arena
          ingoing_channel_map := updateA st.ingoing_channel_map ch
            { data with receiver_win_size := data.extend_window_size }
          events := st.events ++ sinkEvents data true b ++
            [Event.WriteAdjustWindow data.outgoing_slot data.extend_window_size] } with hst2
      have hl2 : lookupA st2.ingoing_channel_map ch =
          some { data with receiver_win_size := data.extend_window_size } :=
        lookupA_updateA_self _ _ _ _ hl
      obtain ⟨st', hrun, hcount⟩ := ih st2 ch _ hl2 hrecv hext (hext ▸ hE) (hext ▸ hEmax)
        (by
          rw [if_pos hz] at hns'
          show noOvershoot E data.extend_window_size _ = true
          rw [hext]
          exact hns')
      refine ⟨st', hrun, ?_⟩
      dsimp only at hcount
      have hev : (adjustEvents st2.events).length = (adjustEvents st.events).length + 1 := by
        rw [hst2]
        show (adjustEvents (st.events ++ sinkEvents data true b ++ [_])).length = _
        rw [adjustEvents_append, adjustEvents_append, adjustEvents_sinkEvents]
        simp [adjustEvents, Event.isAdjust]
      simp only [List.map_cons, List.sum_cons]
      rw [hcount, hev, hext]
      have h1 : (List.map Bytes.len rest).sum + E - E = (List.map Bytes.len rest).sum := by
        omega
      rw [h1]
      have h2 : b.len + (List.map Bytes.len rest).sum + E - data.receiver_win_size =
          (List.map Bytes.len rest).sum + E := by omega
      rw [h2, Nat.add_div_right _ hE]
      omega
    · -- budget still positive: no frame emitted
      rw [if_neg (fun hc => hz hc.1)]
      set st2 : ReadTaskState :=
        { arena := st.arena
          ingoing_channel_map := updateA st.ingoing_channel_map ch
            { data with receiver_win_size := data.receiver_win_size - b.len }
          events := st.events ++ sinkEvents data true b } with hst2
      have hl2 : lookupA st2.ingoing_channel_map ch =
          some { data with receiver_win_size := data.receiver_win_size - b.len } :=
        lookupA_updateA_self _ _ _ _ hl
      obtain ⟨st', hrun, hcount⟩ := ih st2 ch _ hl2 hrecv hext
        (by show 0 < data.receiver_win_size - b.len; omega)
        (by show data.receiver_win_size - b.len ≤ u32max; omega)
        (by rw [if_neg hz] at hns'; exact hns')
      refine ⟨st', hrun, ?_⟩
      dsimp only at hcount
      have hev : (adjustEvents st2.events).length = (adjustEvents st.events).length := by
        rw [hst2]
        show (adjustEvents (st.events ++ sinkEvents data true b)).length = _
        rw [adjustEvents_append, adjustEvents_sinkEvents, List.append_nil]
      simp only [List.map_cons, List.sum_cons]
      rw [hcount, hev]
      have harg : (List.map Bytes.len rest).sum + E - (data.receiver_win_size - b.len) =
          b.len + (List.map Bytes.len rest).sum + E - data.receiver_win_size := by omega
      rw [harg]

/-- With no live consumer the budget consumption of a run of `Data`
frames on a registered channel never emits a window-adjust frame. -/
theorem processDataFrames_no_receivers :
    ∀ (frames : List Bytes) (st : ReadTaskState) (ch : Nat) (data : ChannelIngoingData),
      lookupA st.ingoing_channel_map ch = some data →
      (arenaGet st data.outgoing_slot).receivers_count = 0 →
      ∃ st', processDataFrames ch st frames = Except.ok st' ∧
        adjustEvents st'.events = adjustEvents st.events := by
  intro frames
  induction frames with
  | nil => intro st ch data _ _; exact ⟨st, rfl, rfl⟩
  | cons b rest ih =>
    intro st ch data hl hrecv
    simp only [processDataFrames]
    rw [handle_incoming_data_eq st ch data b true hl]
    rw [if_neg (fun hc => hc.2 hrecv)]
    set st2 : ReadTaskState :=
      { arena := st.arena
        ingoing_channel_map := updateA st.ingoing_channel_map ch
          { data with receiver_win_size := data.receiver_win_size - cntOfLen b.len }
        events := st.events ++ sinkEvents data true b } with hst2
    have hl2 : lookupA st2.ingoing_channel_map ch =
        some { data with receiver_win_size := data.receiver_win_size - cntOfLen b.len } :=
      lookupA_updateA_self _ _ _ _ hl
    obtain ⟨st', hrun, hcount⟩ := ih st2 ch _ hl2 hrecv
    refine ⟨st', hrun, ?_⟩
    rw [hcount, hst2]
    show adjustEvents (st.events ++ sinkEvents data true b) = _
    rw [adjustEvents_append, adjustEvents_sinkEvents, List.append_nil]

/-- C1 counterexample: in the spec's end-to-end scenario (initial window
65536, quantum 32768, one consumer), feeding 40000 bytes of `Data` across
two frames emits zero window-adjust frames — not the one frame the claim
asserts — because the budget drops to 25536 and never reaches zero. -/
theorem C1_counterexample :
    (okState (processDataFrames 5 scenarioState [Bytes.mk 20000, Bytes.mk 20000])).map
        (fun st => (adjustEvents st.events).length) = some 0
      ∧ (0 : Nat) ≠ 1 := by
  constructor
  · rfl
  · decide

/-- C1 (amended): for a channel whose ingoing state has `receiver_win_size
= 65536` and `extend_window_size = 32768`, with `receivers_count > 0` and
an rx sink present, dispatching two `Data` frames totalling 40000 payload
bytes emits no window-adjust frame (the budget becomes 25536 and never
reaches zero), and the total bytes pushed to the rx sink equals 40000. -/
theorem C1_amended_scenario :
    (okState (processDataFrames 5 scenarioState [Bytes.mk 20000, Bytes.mk 20000])).map
        (fun st => ((adjustEvents st.events).length, pushedTo (7, true) st.events,
          (lookupA st.ingoing_channel_map 5).map
            (fun d : ChannelIngoingData => d.receiver_win_size)))
      = some (0, 40000, some 25536) := by
  rfl

/-- C2 counterexample: on a channel with starting budget B = 65536 and
quantum E = 32768, a consumer continuously present, a single consumption
of C = 40000 bytes emits zero window-adjust frames although
⌊C/E⌋ = 1 — the code only replenishes when the budget reaches exactly
zero, so the count is not ⌊C/E⌋ in general. -/
theorem C2_counterexample :
    (okState (processDataFrames 5 scenarioState [Bytes.mk 40000])).map
        (fun st => (adjustEvents st.events).length) = some 0
      ∧ (40000 : Nat) / 32768 = 1 := by
  constructor
  · rfl
  · decide

/-- C2 (amended): for every sequence of receiver-budget consumptions on
one channel with total consumed byte count C, starting budget B and
replenishment quantum E, where B = E, E is a positive `u32` value and no
single consumption exceeds the budget remaining at that point: if
`receivers_count > 0` throughout, the number of window-adjust frames
emitted equals ⌊C/E⌋; if `receivers_count == 0` throughout, the number
emitted is zero regardless of C. -/
theorem C2_adjust_count :
    (∀ (st : ReadTaskState) (ch : Nat) (data : ChannelIngoingData) (frames : List Bytes),
      lookupA st.ingoing_channel_map ch = some data →
      (arenaGet st data.outgoing_slot).receivers_count ≠ 0 →
      data.receiver_win_size = data.extend_window_size →
      0 < data.extend_window_size →
      data.extend_window_size ≤ u32max →
      noOvershoot data.extend_window_size data.receiver_win_size (frames.map Bytes.len) = true →
      ∃ st', processDataFrames ch st frames = Except.ok st' ∧
        (adjustEvents st'.events).length =
          (adjustEvents st.events).length +
            (frames.map Bytes.len).sum / data.extend_window_size)
    ∧
    (∀ (st : ReadTaskState) (ch : Nat) (data : ChannelIngoingData) (frames : List Bytes),
      lookupA st.ingoing_channel_map ch = some data →
      (arenaGet st data.outgoing_slot).receivers_count = 0 →
      ∃ st', processDataFrames ch st frames = Except.ok st' ∧
        adjustEvents st'.events = adjustEvents st.events) := by
  constructor
  · intro st ch data frames hl hrecv hBE hE hEmax hns
    obtain ⟨st', hrun, hcount⟩ :=
      processDataFrames_adjust data.extend_window_size hE hEmax frames st ch data hl hrecv rfl
        (by omega) (by omega) (hBE ▸ hns)
    refine ⟨st', hrun, ?_⟩
    rw [hcount, hBE]
    have harg : (frames.map Bytes.len).sum + data.extend_window_size - data.extend_window_size =
        (frames.map Bytes.len).sum := by omega
    rw [harg]
  · intro st ch data frames hl hrecv
    exact processDataFrames_no_receivers frames st ch data hl hrecv

/-- C2 witness: on the concrete witness channel (B = E = 32768, one
consumer) the two frames of 20000 and 12768 bytes emit exactly
⌊32768/32768⌋ = 1 window-adjust frame, and with `receivers_count = 0` a
99999-byte frame emits none. -/
theorem C2_adjust_count_witness :
    (∃ st', processDataFrames 5 exState [Bytes.mk 20000, Bytes.mk 12768] = Except.ok st' ∧
        (adjustEvents st'.events).length =
          (adjustEvents exState.events).length +
            (([Bytes.mk 20000, Bytes.mk 12768].map Bytes.len).sum / exData.extend_window_size))
    ∧
    (∃ st', processDataFrames 5 exStateNoRecv [Bytes.mk 99999] = Except.ok st' ∧
        adjustEvents st'.events = adjustEvents exStateNoRecv.events) := by
  constructor
  · exact C2_adjust_count.1 exState 5 exData [Bytes.mk 20000, Bytes.mk 12768]
      (by decide) (by decide) (by decide) (by decide) (by decide) (by decide)
  · exact C2_adjust_count.2 exStateNoRecv 5 exData [Bytes.mk 99999]
      (by decide) (by decide)

/-- Unfolding equation for `handle_request_response` when the local count
is hydrated with more than one outstanding response: decrement and record
the outcome, no completion reported. -/
theorem handle_request_response_step (st : ReadTaskState) (ch : Nat)
    (data : ChannelIngoingData) (m : Nat) (success : Bool)
    (h : lookupA st.ingoing_channel_map ch = some data)
    (hp : data.pending_requests.pending = some m) (hm : m - 1 ≠ 0) :
    handle_request_response st ch success = Except.ok
      { arena := st.arena
        ingoing_channel_map := updateA st.ingoing_channel_map ch
          { data with pending_requests :=
            { pending := some (m - 1)
              has_failed := data.pending_requests.has_failed || !success } }
        events := st.events } := by
  unfold handle_request_response
  rw [h]
  dsimp only
  rw [if_neg (by simp [hp])]
  rw [hp]
  dsimp only
  rw [if_neg hm]
  rw [if_neg (by simp)]

/-- Unfolding equation for `handle_request_response` when the hydrated
count reaches zero with this response: the aggregated completion is
reported and the local count is cleared. -/
theorem handle_request_response_last (st : ReadTaskState) (ch : Nat)
    (data : ChannelIngoingData) (m : Nat) (success : Bool)
    (h : lookupA st.ingoing_channel_map ch = some data)
    (hp : data.pending_requests.pending = some m) (hm : m - 1 = 0) :
    handle_request_response st ch success = Except.ok
      { arena := st.arena
        ingoing_channel_map := updateA st.ingoing_channel_map ch
          { data with pending_requests :=
            { pending := none
              has_failed := data.pending_requests.has_failed || !success } }
        events := st.events ++
          [Event.ReportCompletion data.outgoing_slot
            (if data.pending_requests.has_failed || !success
             then Completion.Failed else Completion.Success)] } := by
  unfold handle_request_response
  rw [h]
  dsimp only
  rw [if_neg (by simp [hp])]
  rw [hp]
  dsimp only
  rw [if_pos hm]
  rw [if_pos rfl]

/-- Unfolding equation for the first response of a batch: the local count
is hydrated from the shared descriptor's snapshot (with `has_failed`
reset), then decremented; more responses remain. -/
theorem handle_request_response_first (st : ReadTaskState) (ch : Nat)
    (data : ChannelIngoingData) (N : Nat) (success : Bool)
    (h : lookupA st.ingoing_channel_map ch = some data)
    (hp : data.pending_requests.pending = none)
    (hN : (arenaGet st data.outgoing_slot).pending_requests_count = some N)
    (hm : N - 1 ≠ 0) :
    handle_request_response st ch success = Except.ok
      { arena := st.arena
        ingoing_channel_map := updateA st.ingoing_channel_map ch
          { data with pending_requests :=
            { pending := some (N - 1), has_failed := !success } }
        events := st.events } := by
  unfold handle_request_response
  rw [h]
  dsimp only
  rw [if_pos hp]
  dsimp only
  rw [hN]
  dsimp only
  rw [if_neg hm]
  rw [if_neg (by simp)]
  simp

/-- Unfolding equation for a batch of exactly one response: hydration and
completion report happen in the same call. -/
theorem handle_request_response_first_last (st : ReadTaskState) (ch : Nat)
    (data : ChannelIngoingData) (N : Nat) (success : Bool)
    (h : lookupA st.ingoing_channel_map ch = some data)
    (hp : data.pending_requests.pending = none)
    (hN : (arenaGet st data.outgoing_slot).pending_requests_count = some N)
    (hm : N - 1 = 0) :
    handle_request_response st ch success = Except.ok
      { arena := st.arena
        ingoing_channel_map := updateA st.ingoing_channel_map ch
          { data with pending_requests := { pending := none, has_failed := !success } }
        events := st.events ++
          [Event.ReportCompletion data.outgoing_slot
            (if success then Completion.Success else Completion.Failed)] } := by
  unfold handle_request_response
  rw [h]
  dsimp only
  rw [if_pos hp]
  dsimp only
  rw [hN]
  dsimp only
  rw [if_pos hm]
  rw [if_pos rfl]
  cases success <;> simp

theorem anyNot_eq_false_iff (bs : List Bool) :
    ((bs.filter fun b => !b).length = 0) ↔ (bs.any fun b => !b) = false := by
  induction bs with
  | nil => simp
  | cons b rest ih => cases b <;> simp [ih]

/-- A batch whose hydrated count matches its length reports the aggregated
completion exactly once, at the end, and clears the local count. -/
theorem processRequestResponses_batch (ch : Nat) :
    ∀ (bs : List Bool) (st : ReadTaskState) (data : ChannelIngoingData) (m : Nat),
      lookupA st.ingoing_channel_map ch = some data →
      data.pending_requests.pending = some m →
      bs.length = m → 0 < m →
      ∃ st', processRequestResponses ch st bs = Except.ok st' ∧
        st'.arena = st.arena ∧
        st'.events = st.events ++
          [Event.ReportCompletion data.outgoing_slot
            (if data.pending_requests.has_failed || bs.any (fun b => !b)
             then Completion.Failed else Completion.Success)] ∧
        lookupA st'.ingoing_channel_map ch = some
          { data with pending_requests :=
            { pending := none
              has_failed := data.pending_requests.has_failed || bs.any (fun b => !b) } } := by
  intro bs
  induction bs with
  | nil =>
    intro st data m _ _ hlen hm
    simp at hlen
    omega
  | cons b rest ih =>
    intro st data m hl hp hlen hm
    simp only [processRequestResponses]
    by_cases hone : m - 1 = 0
    · have hrest : rest = [] := by
        have : rest.length = 0 := by simp at hlen; omega
        exact List.eq_nil_of_length_eq_zero this
      subst hrest
      rw [handle_request_response_last st ch data m b hl hp hone]
      refine ⟨_, rfl, rfl, ?_, ?_⟩
      · simp
      · have hupd := lookupA_updateA_self st.ingoing_channel_map ch
          { data with pending_requests :=
            { pending := none
              has_failed := data.pending_requests.has_failed || !b } } data hl
        dsimp only
        rw [hupd]
        simp
    · rw [handle_request_response_step st ch data m b hl hp hone]
      dsimp only
      have hl2 := lookupA_updateA_self st.ingoing_channel_map ch
        { data with pending_requests :=
          { pending := some (m - 1)
            has_failed := data.pending_requests.has_failed || !b } } data hl
      obtain ⟨st', hrun, harena, hevents, hlook⟩ := ih
        { arena := st.arena
          ingoing_channel_map := updateA st.ingoing_channel_map ch
            { data with pending_requests :=
              { pending := some (m - 1)
                has_failed := data.pending_requests.has_failed || !b } }
          events := st.events }
        { data with pending_requests :=
          { pending := some (m - 1)
            has_failed := data.pending_requests.has_failed || !b } }
        (m - 1) hl2 rfl (by simp at hlen ⊢; omega) (by omega)
      refine ⟨st', hrun, harena, ?_, ?_⟩
      · rw [hevents]
        simp [Bool.or_assoc]
      · rw [hlook]
        simp [Bool.or_assoc]

/-- Processing strictly fewer responses than the hydrated count reports no
completion and leaves the decremented count behind. -/
theorem processRequestResponses_partial (ch : Nat) :
    ∀ (bs : List Bool) (st : ReadTaskState) (data : ChannelIngoingData) (m : Nat),
      lookupA st.ingoing_channel_map ch = some data →
      data.pending_requests.pending = some m →
      bs.length < m →
      ∃ st', processRequestResponses ch st bs = Except.ok st' ∧
        st'.events = st.events ∧
        lookupA st'.ingoing_channel_map ch = some
          { data with pending_requests :=
            { pending := some (m - bs.length)
              has_failed := data.pending_requests.has_failed || bs.any (fun b => !b) } } := by
  intro bs
  induction bs with
  | nil =>
    intro st data m hl hp _
    refine ⟨st, rfl, rfl, ?_⟩
    rw [hl]
    simp only [List.length_nil, Nat.sub_zero, List.any_nil, Bool.or_false]
    rw [← hp]
  | cons b rest ih =>
    intro st data m hl hp hlen
    have hone : m - 1 ≠ 0 := by simp at hlen; omega
    simp only [processRequestResponses]
    rw [handle_request_response_step st ch data m b hl hp hone]
    dsimp only
    have hl2 := lookupA_updateA_self st.ingoing_channel_map ch
      { data with pending_requests :=
        { pending := some (m - 1)
          has_failed := data.pending_requests.has_failed || !b } } data hl
    obtain ⟨st', hrun, hevents, hlook⟩ := ih
      { arena := st.arena
        ingoing_channel_map := updateA st.ingoing_channel_map ch
          { data with pending_requests :=
            { pending := some (m - 1)
              has_failed := data.pending_requests.has_failed || !b } }
        events := st.events }
      { data with pending_requests :=
        { pending := some (m - 1)
          has_failed := data.pending_requests.has_failed || !b } }
      (m - 1) hl2 rfl (by simp at hlen ⊢; omega)
    refine ⟨st', hrun, hevents, ?_⟩
    rw [hlook]
    have heq : m - 1 - rest.length = m - (b :: rest).length := by
      simp only [List.length_cons]
      omega
    simp [heq, Bool.or_assoc]

/-- C3: for every batch of N request responses on one registered channel,
of which exactly K report failure, the aggregated completion reported to
the shared descriptor is `Success` iff K = 0 (`Failed` otherwise); the
completion is reported exactly once, immediately after the Nth response
and never earlier (no proper prefix reports anything); afterwards the
local pending count is cleared. -/
theorem C3_batch_completion :
    ∀ (st : ReadTaskState) (ch : Nat) (data : ChannelIngoingData) (bs : List Bool) (N : Nat),
      lookupA st.ingoing_channel_map ch = some data →
      data.pending_requests.pending = none →
      (arenaGet st data.outgoing_slot).pending_requests_count = some N →
      bs.length = N → 0 < N →
      ∃ st', processRequestResponses ch st bs = Except.ok st' ∧
        completionEvents st'.events = completionEvents st.events ++
          [Event.ReportCompletion data.outgoing_slot
            (if (bs.filter (fun b => !b)).length = 0
             then Completion.Success else Completion.Failed)] ∧
        lookupA st'.ingoing_channel_map ch = some
          { data with pending_requests :=
            { pending := none, has_failed := bs.any (fun b => !b) } } ∧
        (∀ k, k < N → ∃ stk, processRequestResponses ch st (bs.take k) = Except.ok stk ∧
          completionEvents stk.events = completionEvents st.events) := by
  intro st ch data bs N hl hp hN hlen hNpos
  cases bs with
  | nil => simp at hlen; omega
  | cons b rest =>
    by_cases hone : N - 1 = 0
    · have hrest : rest = [] := by
        simp at hlen
        exact List.eq_nil_of_length_eq_zero (by omega)
      subst hrest
      have hrun1 := handle_request_response_first_last st ch data N b hl hp hN hone
      refine ⟨{ arena := st.arena
                ingoing_channel_map := updateA st.ingoing_channel_map ch
                  { data with pending_requests := { pending := none, has_failed := !b } }
                events := st.events ++
                  [Event.ReportCompletion data.outgoing_slot
                    (if b then Completion.Success else Completion.Failed)] }, ?_, ?_, ?_, ?_⟩
      · simp only [processRequestResponses]
        rw [hrun1]
      · rw [completionEvents_append]
        cases b <;> simp [completionEvents, Event.isCompletion]
      · rw [lookupA_updateA_self _ _ _ _ hl]
        simp
      · intro k hk
        have hk0 : k = 0 := by omega
        subst hk0
        exact ⟨st, rfl, rfl⟩
    · have hfirst := handle_request_response_first st ch data N b hl hp hN hone
      have hl2 := lookupA_updateA_self st.ingoing_channel_map ch
        { data with pending_requests := { pending := some (N - 1), has_failed := !b } } data hl
      have hrlen : rest.length = N - 1 := by simp at hlen; omega
      obtain ⟨st', hrun, _, hevents, hlook⟩ :=
        processRequestResponses_batch ch rest
          { arena := st.arena
            ingoing_channel_map := updateA st.ingoing_channel_map ch
              { data with pending_requests := { pending := some (N - 1), has_failed := !b } }
            events := st.events }
          { data with pending_requests := { pending := some (N - 1), has_failed := !b } }
          (N - 1) hl2 rfl hrlen (by omega)
      refine ⟨st', ?_, ?_, ?_, ?_⟩
      · simp only [processRequestResponses]
        rw [hfirst]
        exact hrun
      · rw [hevents]
        rw [completionEvents_append]
        dsimp only
        by_cases hz : ((b :: rest).filter fun x => !x).length = 0
        · have hany : ((b :: rest).any fun x => !x) = false := (anyNot_eq_false_iff _).1 hz
          rw [List.any_cons] at hany
          rw [if_pos hz, hany]
          simp [completionEvents, Event.isCompletion]
        · have hany : ((b :: rest).any fun x => !x) = true := by
            rcases Bool.eq_false_or_eq_true ((b :: rest).any fun x => !x) with ht | hf
            · exact ht
            · exact absurd ((anyNot_eq_false_iff _).2 hf) hz
          rw [List.any_cons] at hany
          rw [if_neg hz, hany]
          simp [completionEvents, Event.isCompletion]
      · rw [hlook]
        simp
      · intro k hk
        cases k with
        | zero => exact ⟨st, rfl, rfl⟩
        | succ j =>
          simp only [List.take_succ_cons, processRequestResponses]
          rw [hfirst]
          have hjlen : (rest.take j).length < N - 1 := by
            rw [List.length_take]
            omega
          obtain ⟨stk, hrunk, hevk, _⟩ :=
            processRequestResponses_partial ch (rest.take j)
              { arena := st.arena
                ingoing_channel_map := updateA st.ingoing_channel_map ch
                  { data with pending_requests := { pending := some (N - 1), has_failed := !b } }
                events := st.events }
              { data with pending_requests := { pending := some (N - 1), has_failed := !b } }
              (N - 1) hl2 rfl hjlen
          exact ⟨stk, hrunk, by rw [hevk]⟩

/-- C3 witness: a batch of two responses (one failure) on the witness
channel reports `Failed` exactly once after the second response, clears
the local count, and reports nothing after any proper prefix. -/
theorem C3_batch_completion_witness :
    ∃ st', processRequestResponses 5 exState [true, false] = Except.ok st' ∧
      completionEvents st'.events = completionEvents exState.events ++
        [Event.ReportCompletion exData.outgoing_slot
          (if (([true, false] : List Bool).filter (fun b => !b)).length = 0
           then Completion.Success else Completion.Failed)] ∧
      lookupA st'.ingoing_channel_map 5 = some
        { exData with pending_requests :=
          { pending := none, has_failed := ([true, false] : List Bool).any (fun b => !b) } } ∧
      (∀ k, k < 2 → ∃ stk, processRequestResponses 5 exState (([true, false] : List Bool).take k) = Except.ok stk ∧
        completionEvents stk.events = completionEvents exState.events) :=
  C3_batch_completion exState 5 exData [true, false] 2
    (by decide) (by decide) (by decide) (by decide) (by decide)

theorem arenaGet_eq (st : ReadTaskState) (slot : Nat) (sh : SharedChannelData)
    (h : lookupA st.arena slot = some sh) : arenaGet st slot = sh := by
  simp [arenaGet, h]

theorem mark_eof_some_some (data : ChannelIngoingData) (r t : SinkId)
    (hrx : data.rx = some r) (hst : data.stderr = some t) :
    mark_eof data = ({ data with rx := none, stderr := none },
      [Event.MarkEof r, Event.MarkEof t]) := by
  unfold mark_eof
  rw [hrx, hst]
  rfl

theorem mark_eof_none_none (data : ChannelIngoingData)
    (hrx : data.rx = none) (hst : data.stderr = none) :
    mark_eof data = ({ data with rx := none, stderr := none }, []) := by
  unfold mark_eof
  rw [hrx, hst]
  rfl

theorem dispatch_eof_eq (st : ReadTaskState) (ch : Nat) (data : ChannelIngoingData)
    (hl : lookupA st.ingoing_channel_map ch = some data) :
    dispatch_channel_response st ch ChannelResponse.Eof = Except.ok
      { arena := st.arena
        ingoing_channel_map := updateA st.ingoing_channel_map ch (mark_eof data).1
        events := st.events ++ (mark_eof data).2 } := by
  unfold dispatch_channel_response
  rw [hl]

theorem dispatch_close_eq (st : ReadTaskState) (ch : Nat) (data : ChannelIngoingData)
    (hl : lookupA st.ingoing_channel_map ch = some data) :
    dispatch_channel_response st ch ChannelResponse.Close = Except.ok
      { arena := st.arena
        ingoing_channel_map := eraseA st.ingoing_channel_map ch
        events := st.events ++ (mark_eof data).2 } := by
  unfold dispatch_channel_response
  rw [hl]

theorem dispatch_bytes_adjust_eq (st : ReadTaskState) (ch : Nat)
    (data : ChannelIngoingData) (n : Nat)
    (hl : lookupA st.ingoing_channel_map ch = some data) :
    dispatch_channel_response st ch (ChannelResponse.BytesAdjust n) = Except.ok
      { arena := updateA st.arena data.outgoing_slot
          { arenaGet st data.outgoing_slot with
            sender_window_size := (arenaGet st data.outgoing_slot).sender_window_size + n }
        ingoing_channel_map := st.ingoing_channel_map
        events := st.events } := by
  unfold dispatch_channel_response
  rw [hl]

theorem dispatch_open_confirmation_dup (st : ReadTaskState) (rc s iw mp : Nat)
    (sh : SharedChannelData) (irw ews : Nat) (ex : ChannelIngoingData)
    (harena : lookupA st.arena rc = some sh)
    (hopen : sh.open_st = ChannelOpenSt.OpeningRequested irw ews)
    (hdup : lookupA st.ingoing_channel_map s = some ex) :
    dispatch_channel_response st rc (ChannelResponse.OpenConfirmation s iw mp) =
      Except.error
        ({ arena := updateA
              (updateA st.arena rc { sh with sender_window_size := sh.sender_window_size + iw })
              rc
              { sh with sender_window_size := sh.sender_window_size + iw
                        open_st := ChannelOpenSt.Resolved (OpenChannelRes.Confirmed mp) }
           ingoing_channel_map := st.ingoing_channel_map
           events := st.events },
         Error.DuplicateSenderChannel s) := by
  unfold dispatch_channel_response
  rw [harena]
  dsimp only
  rw [hopen]
  dsimp only
  rw [hdup]

theorem dispatch_open_confirmation_ok (st : ReadTaskState) (rc s iw mp : Nat)
    (sh : SharedChannelData) (irw ews : Nat)
    (harena : lookupA st.arena rc = some sh)
    (hopen : sh.open_st = ChannelOpenSt.OpeningRequested irw ews)
    (hnew : lookupA st.ingoing_channel_map s = none) :
    dispatch_channel_response st rc (ChannelResponse.OpenConfirmation s iw mp) =
      Except.ok
        { arena := updateA
            (updateA st.arena rc { sh with sender_window_size := sh.sender_window_size + iw })
            rc
            { sh with sender_window_size := sh.sender_window_size + iw
                      open_st := ChannelOpenSt.Resolved (OpenChannelRes.Confirmed mp) }
          ingoing_channel_map := (s,
            { outgoing_slot := rc
              receiver_win_size := irw
              extend_window_size := ews
              pending_requests := { pending := none, has_failed := false }
              rx := if sh.has_rx then some (rc, true) else none
              stderr := if sh.has_stderr then some (rc, false) else none }) ::
            st.ingoing_channel_map
          events := st.events } := by
  unfold dispatch_channel_response
  rw [harena]
  dsimp only
  rw [hopen]
  dsimp only
  rw [hnew]

/-- C4 counterexample: an `ExtendedData` frame whose data type is not
`Stderr`, addressed to an id that is not registered, does not fail with an
invalid-channel error — the dispatch returns success without touching any
state, refuting the claim that every channel-scoped frame (including
`ExtendedData`) on an unregistered id fails. -/
theorem C4_counterexample :
    dispatch_channel_response emptyState 1
        (ChannelResponse.ExtendedData ExtendedDataType.NonStderr (Bytes.mk 5)) =
      Except.ok emptyState
    ∧ lookupA emptyState.ingoing_channel_map 1 = none := by
  exact ⟨rfl, rfl⟩

/-- C4 (amended): dispatching an `OpenConfirmation` whose sender id is
already a key of the registry fails with a duplicate-channel error and
leaves the registry (in particular the existing entry) unchanged;
dispatching `Close`, `BytesAdjust`, `Data`, `ExtendedData(Stderr)`, `Eof`,
`RequestSuccess` or `RequestFailure` for an unregistered channel id fails
with an invalid-channel error and performs no state mutation at all; an
`ExtendedData` frame whose type is not `Stderr` is instead dispatched as a
no-op without consulting the registry. -/
theorem C4_registry_errors :
    (∀ (st : ReadTaskState) (rc s iw mp : Nat) (sh : SharedChannelData)
        (irw ews : Nat) (ex : ChannelIngoingData),
      lookupA st.arena rc = some sh →
      sh.open_st = ChannelOpenSt.OpeningRequested irw ews →
      lookupA st.ingoing_channel_map s = some ex →
      ∃ st'', dispatch_channel_response st rc (ChannelResponse.OpenConfirmation s iw mp) =
          Except.error (st'', Error.DuplicateSenderChannel s) ∧
        st''.ingoing_channel_map = st.ingoing_channel_map ∧
        lookupA st''.ingoing_channel_map s = some ex)
    ∧
    (∀ (st : ReadTaskState) (ch : Nat),
      lookupA st.ingoing_channel_map ch = none →
      dispatch_channel_response st ch ChannelResponse.Close =
          Except.error (st, Error.InvalidSenderChannel ch) ∧
      (∀ n, dispatch_channel_response st ch (ChannelResponse.BytesAdjust n) =
          Except.error (st, Error.InvalidSenderChannel ch)) ∧
      (∀ b, dispatch_channel_response st ch (ChannelResponse.Data b) =
          Except.error (st, Error.InvalidSenderChannel ch)) ∧
      (∀ b, dispatch_channel_response st ch
            (ChannelResponse.ExtendedData ExtendedDataType.Stderr b) =
          Except.error (st, Error.InvalidSenderChannel ch)) ∧
      dispatch_channel_response st ch ChannelResponse.Eof =
          Except.error (st, Error.InvalidSenderChannel ch) ∧
      dispatch_channel_response st ch ChannelResponse.RequestSuccess =
          Except.error (st, Error.InvalidSenderChannel ch) ∧
      dispatch_channel_response st ch ChannelResponse.RequestFailure =
          Except.error (st, Error.InvalidSenderChannel ch))
    ∧
    (∀ (st : ReadTaskState) (ch : Nat) (dt : ExtendedDataType) (b : Bytes),
      dt ≠ ExtendedDataType.Stderr →
      dispatch_channel_response st ch (ChannelResponse.ExtendedData dt b) =
        Except.ok st) := by
  refine ⟨?_, ?_, ?_⟩
  · intro st rc s iw mp sh irw ews ex harena hopen hdup
    refine ⟨_, dispatch_open_confirmation_dup st rc s iw mp sh irw ews ex harena hopen hdup,
      rfl, hdup⟩
  · intro st ch hnone
    refine ⟨?_, ?_, ?_, ?_, ?_, ?_, ?_⟩
    · unfold dispatch_channel_response
      rw [hnone]
    · intro n
      unfold dispatch_channel_response
      rw [hnone]
    · intro b
      unfold dispatch_channel_response handle_incoming_data
      rw [hnone]
    · intro b
      unfold dispatch_channel_response handle_incoming_data
      rw [hnone]
    · unfold dispatch_channel_response
      rw [hnone]
    · unfold dispatch_channel_response handle_request_response
      rw [hnone]
    · unfold dispatch_channel_response handle_request_response
      rw [hnone]
  · intro st ch dt b hdt
    cases dt with
    | Stderr => exact absurd rfl hdt
    | NonStderr => rfl

/-- C4 witness: on the opening-state witness (slot 3 still opening, sender
id 9 already registered) a duplicate `OpenConfirmation` fails and keeps
the registry; on the confirmed witness state the channel-scoped frames for
the unregistered id 42 fail without mutating anything, while a
non-`Stderr` `ExtendedData` frame for id 42 succeeds as a no-op. -/
theorem C4_registry_errors_witness :
    (∃ st'', dispatch_channel_response exOpenState 3 (ChannelResponse.OpenConfirmation 9 77 88) =
        Except.error (st'', Error.DuplicateSenderChannel 9) ∧
      st''.ingoing_channel_map = exOpenState.ingoing_channel_map ∧
      lookupA st''.ingoing_channel_map 9 = some
        { outgoing_slot := 3
          receiver_win_size := 1000
          extend_window_size := 500
          pending_requests := { pending := none, has_failed := false }
          rx := none
          stderr := none }) ∧
    dispatch_channel_response exState 42 ChannelResponse.Close =
      Except.error (exState, Error.InvalidSenderChannel 42) ∧
    dispatch_channel_response exState 42 (ChannelResponse.Data (Bytes.mk 3)) =
      Except.error (exState, Error.InvalidSenderChannel 42) ∧
    dispatch_channel_response exState 42
        (ChannelResponse.ExtendedData ExtendedDataType.NonStderr (Bytes.mk 3)) =
      Except.ok exState := by
  refine ⟨?_, ?_, ?_, ?_⟩
  · exact C4_registry_errors.1 exOpenState 3 9 77 88
      { sender_window_size := 0
        receivers_count := 0
        pending_requests_count := none
        open_st := ChannelOpenSt.OpeningRequested 1000 500
        has_rx := true
        has_stderr := false } 1000 500
      { outgoing_slot := 3
        receiver_win_size := 1000
        extend_window_size := 500
        pending_requests := { pending := none, has_failed := false }
        rx := none
        stderr := none }
      (by decide) rfl (by decide)
  · exact (C4_registry_errors.2.1 exState 42 (by decide)).1
  · exact (C4_registry_errors.2.1 exState 42 (by decide)).2.2.1 (Bytes.mk 3)
  · exact C4_registry_errors.2.2 exState 42 ExtendedDataType.NonStderr (Bytes.mk 3) (by decide)

/-- C5: the source of `create_read_task_inner` reads and dispatches a
single frame and then reaches `todo!()`: after every successful dispatch
the outcome is the unimplemented-marker (a panic at run time), never a
continuation to the next frame, while every dispatch error is returned as
the task's failure value.  The claim's loop behaviour is the documented
intent; the code's trailing `todo!()` contradicts it. -/
theorem C5_loop_unimplemented :
    (∀ (st : ReadTaskState) (rc : Nat) (cr : ChannelResponse) (st' : ReadTaskState),
      dispatch_channel_response st rc cr = Except.ok st' →
      create_read_task_inner st (Response.ChannelResponse rc cr) =
        TaskOutcome.UnimplementedTodo)
    ∧
    (∀ (st : ReadTaskState) (rc : Nat) (cr : ChannelResponse)
        (st'' : ReadTaskState) (e : Error),
      dispatch_channel_response st rc cr = Except.error (st'', e) →
      create_read_task_inner st (Response.ChannelResponse rc cr) =
        TaskOutcome.TaskFailed e)
    ∧
    (∀ st : ReadTaskState,
      create_read_task_inner st Response.ConnectionScoped =
        TaskOutcome.TaskFailed Error.UnexpectedChannelState) := by
  refine ⟨?_, ?_, ?_⟩
  · intro st rc cr st' h
    unfold create_read_task_inner
    dsimp only
    rw [h]
  · intro st rc cr st'' e h
    unfold create_read_task_inner
    dsimp only
    rw [h]
  · intro st
    rfl

/-- C5 witness: dispatching an `Eof` frame on the witness channel
succeeds, and the task then reaches the unimplemented marker instead of
reading a next frame; a dispatch error is returned as the failure value. -/
theorem C5_loop_unimplemented_witness :
    create_read_task_inner exState (Response.ChannelResponse 5 ChannelResponse.Eof) =
      TaskOutcome.UnimplementedTodo ∧
    create_read_task_inner exState (Response.ChannelResponse 42 ChannelResponse.Close) =
      TaskOutcome.TaskFailed (Error.InvalidSenderChannel 42) := by
  constructor
  · exact C5_loop_unimplemented.1 exState 5 ChannelResponse.Eof _ rfl
  · exact C5_loop_unimplemented.2.1 exState 42 ChannelResponse.Close exState
      (Error.InvalidSenderChannel 42) rfl

/-- C6: whenever a receiver-budget consumption brings `receiver_win_size`
to zero while `receivers_count > 0`, a window-adjust frame whose amount
equals exactly `extend_window_size` is handed to the write path and
`receiver_win_size` is reset to exactly `extend_window_size` — never a
partial top-up. -/
theorem C6_window_replenish :
    ∀ (st : ReadTaskState) (ch : Nat) (data : ChannelIngoingData)
      (bytes : Bytes) (is_rx : Bool),
      lookupA st.ingoing_channel_map ch = some data →
      (arenaGet st data.outgoing_slot).receivers_count ≠ 0 →
      data.receiver_win_size - cntOfLen bytes.len = 0 →
      ∃ st', handle_incoming_data st ch bytes is_rx = Except.ok st' ∧
        adjustEvents st'.events = adjustEvents st.events ++
          [Event.WriteAdjustWindow data.outgoing_slot data.extend_window_size] ∧
        lookupA st'.ingoing_channel_map ch =
          some { data with receiver_win_size := data.extend_window_size } := by
  intro st ch data bytes is_rx hl hrecv hz
  rw [handle_incoming_data_eq st ch data bytes is_rx hl, if_pos ⟨hz, hrecv⟩]
  refine ⟨_, rfl, ?_, ?_⟩
  · dsimp only
    rw [adjustEvents_append, adjustEvents_append, adjustEvents_sinkEvents]
    simp [adjustEvents, Event.isAdjust]
  · exact lookupA_updateA_self _ _ _ _ hl

/-- C6 witness: a 32768-byte consumption on the witness channel (budget
32768, quantum 32768, one consumer) empties the budget, emits one
window-adjust frame of amount 32768 and resets the budget to 32768. -/
theorem C6_window_replenish_witness :
    ∃ st', handle_incoming_data exState 5 (Bytes.mk 32768) true = Except.ok st' ∧
      adjustEvents st'.events = adjustEvents exState.events ++
        [Event.WriteAdjustWindow exData.outgoing_slot exData.extend_window_size] ∧
      lookupA st'.ingoing_channel_map 5 =
        some { exData with receiver_win_size := exData.extend_window_size } :=
  C6_window_replenish exState 5 exData (Bytes.mk 32768) true
    (by decide) (by decide) (by decide)

/-- C7: `Eof` on a registered channel with both sinks present marks both
sinks end-of-stream exactly once and leaves the channel registered (with
its sink handles taken); a subsequent `Close` removes the registry entry
without marking the sinks a second time; `Close` with no prior `Eof`
removes the entry and still marks both sinks end-of-stream. -/
theorem C7_eof_close :
    ∀ (st : ReadTaskState) (ch : Nat) (data : ChannelIngoingData) (r t : SinkId),
      lookupA st.ingoing_channel_map ch = some data →
      data.rx = some r → data.stderr = some t →
      (∃ st1, dispatch_channel_response st ch ChannelResponse.Eof = Except.ok st1 ∧
        markEofEvents st1.events = markEofEvents st.events ++
          [Event.MarkEof r, Event.MarkEof t] ∧
        lookupA st1.ingoing_channel_map ch = some { data with rx := none, stderr := none } ∧
        (∃ st2, dispatch_channel_response st1 ch ChannelResponse.Close = Except.ok st2 ∧
          markEofEvents st2.events = markEofEvents st1.events ∧
          lookupA st2.ingoing_channel_map ch = none)) ∧
      (∃ st3, dispatch_channel_response st ch ChannelResponse.Close = Except.ok st3 ∧
        markEofEvents st3.events = markEofEvents st.events ++
          [Event.MarkEof r, Event.MarkEof t] ∧
        lookupA st3.ingoing_channel_map ch = none) := by
  intro st ch data r t hl hrx hst
  have hme := mark_eof_some_some data r t hrx hst
  constructor
  · have hd := dispatch_eof_eq st ch data hl
    rw [hme] at hd
    refine ⟨_, hd, ?_, ?_, ?_⟩
    · dsimp only
      rw [markEofEvents_append]
      simp [markEofEvents, Event.isMarkEof]
    · exact lookupA_updateA_self _ _ _ _ hl
    · have hl1 : lookupA (updateA st.ingoing_channel_map ch
          { data with rx := none, stderr := none }) ch =
          some { data with rx := none, stderr := none } :=
        lookupA_updateA_self _ _ _ _ hl
      have hdc := dispatch_close_eq
        { arena := st.arena
          ingoing_channel_map := updateA st.ingoing_channel_map ch
            { data with rx := none, stderr := none }
          events := st.events ++ [Event.MarkEof r, Event.MarkEof t] }
        ch { data with rx := none, stderr := none } hl1
      rw [mark_eof_none_none { data with rx := none, stderr := none } rfl rfl] at hdc
      refine ⟨_, hdc, ?_, ?_⟩
      · dsimp only
        rw [List.append_nil]
      · exact lookupA_eraseA_self _ _
  · have hdc := dispatch_close_eq st ch data hl
    rw [hme] at hdc
    refine ⟨_, hdc, ?_, ?_⟩
    · dsimp only
      rw [markEofEvents_append]
      simp [markEofEvents, Event.isMarkEof]
    · exact lookupA_eraseA_self _ _

/-- C7 witness: the `Eof`/`Close` lifecycle on the witness channel, whose
rx sink is `(7, true)` and stderr sink is `(7, false)`. -/
theorem C7_eof_close_witness :
    (∃ st1, dispatch_channel_response exState 5 ChannelResponse.Eof = Except.ok st1 ∧
      markEofEvents st1.events = markEofEvents exState.events ++
        [Event.MarkEof (7, true), Event.MarkEof (7, false)] ∧
      lookupA st1.ingoing_channel_map 5 = some { exData with rx := none, stderr := none } ∧
      (∃ st2, dispatch_channel_response st1 5 ChannelResponse.Close = Except.ok st2 ∧
        markEofEvents st2.events = markEofEvents st1.events ∧
        lookupA st2.ingoing_channel_map 5 = none)) ∧
    (∃ st3, dispatch_channel_response exState 5 ChannelResponse.Close = Except.ok st3 ∧
      markEofEvents st3.events = markEofEvents exState.events ++
        [Event.MarkEof (7, true), Event.MarkEof (7, false)] ∧
      lookupA st3.ingoing_channel_map 5 = none) :=
  C7_eof_close exState 5 exData (7, true) (7, false) (by decide) (by decide) (by decide)

/-- C9: dispatching an `ExtendedData` frame whose data type is not
`Stderr` is a complete no-op that returns success: the state (registry,
arena, event log) is returned unchanged, so no registry lookup is
consulted (it succeeds even for an unregistered channel id), no bytes are
pushed to any sink and no receiver-window budget is consumed. -/
theorem C9_non_stderr_noop :
    ∀ (st : ReadTaskState) (ch : Nat) (dt : ExtendedDataType) (b : Bytes),
      dt ≠ ExtendedDataType.Stderr →
      dispatch_channel_response st ch (ChannelResponse.ExtendedData dt b) = Except.ok st := by
  intro st ch dt b hdt
  cases dt with
  | Stderr => exact absurd rfl hdt
  | NonStderr => rfl

/-- C9 witness: a non-`Stderr` `ExtendedData` frame for the unregistered
id 1 on the empty state succeeds and changes nothing. -/
theorem C9_non_stderr_noop_witness :
    dispatch_channel_response emptyState 1
        (ChannelResponse.ExtendedData ExtendedDataType.NonStderr (Bytes.mk 9)) =
      Except.ok emptyState ∧
    lookupA emptyState.ingoing_channel_map 1 = none :=
  ⟨C9_non_stderr_noop emptyState 1 ExtendedDataType.NonStderr (Bytes.mk 9) (by decide), rfl⟩

/-- C10: after `Eof` has been dispatched on a registered channel, a
subsequent `Data` or `ExtendedData(Stderr)` frame on that channel is still
accepted without error: its bytes are silently dropped (both sinks were
taken when end-of-stream was marked), yet `receiver_win_size` is still
decremented by the payload length, and a window-adjust frame is still
emitted if the budget reaches zero while `receivers_count > 0`. -/
theorem C10_data_after_eof :
    ∀ (st : ReadTaskState) (ch : Nat) (data : ChannelIngoingData) (r t : SinkId)
      (bytes : Bytes) (cr : ChannelResponse) (is_rx : Bool),
      lookupA st.ingoing_channel_map ch = some data →
      data.rx = some r → data.stderr = some t →
      (is_rx = true ∧ cr = ChannelResponse.Data bytes ∨
        is_rx = false ∧ cr = ChannelResponse.ExtendedData ExtendedDataType.Stderr bytes) →
      ∃ st1, dispatch_channel_response st ch ChannelResponse.Eof = Except.ok st1 ∧
        ∃ st2, dispatch_channel_response st1 ch cr = Except.ok st2 ∧
          (∀ sink : SinkId, pushedTo sink st2.events = pushedTo sink st1.events) ∧
          lookupA st2.ingoing_channel_map ch = some
            { outgoing_slot := data.outgoing_slot
              receiver_win_size :=
                if data.receiver_win_size - cntOfLen bytes.len = 0 ∧
                    (arenaGet st data.outgoing_slot).receivers_count ≠ 0
                then data.extend_window_size
                else data.receiver_win_size - cntOfLen bytes.len
              extend_window_size := data.extend_window_size
              pending_requests := data.pending_requests
              rx := none
              stderr := none } ∧
          (data.receiver_win_size - cntOfLen bytes.len = 0 ∧
              (arenaGet st data.outgoing_slot).receivers_count ≠ 0 →
            adjustEvents st2.events = adjustEvents st1.events ++
              [Event.WriteAdjustWindow data.outgoing_slot data.extend_window_size]) := by
  intro st ch data r t bytes cr is_rx hl hrx hst hcr
  have hme := mark_eof_some_some data r t hrx hst
  have hd := dispatch_eof_eq st ch data hl
  rw [hme] at hd
  refine ⟨_, hd, ?_⟩
  have hl1 : lookupA (updateA st.ingoing_channel_map ch
      { data with rx := none, stderr := none }) ch =
      some { data with rx := none, stderr := none } :=
    lookupA_updateA_self _ _ _ _ hl
  have hdisp : dispatch_channel_response
      { arena := st.arena
        ingoing_channel_map := updateA st.ingoing_channel_map ch
          { data with rx := none, stderr := none }
        events := st.events ++ [Event.MarkEof r, Event.MarkEof t] }
      ch cr = handle_incoming_data
      { arena := st.arena
        ingoing_channel_map := updateA st.ingoing_channel_map ch
          { data with rx := none, stderr := none }
        events := st.events ++ [Event.MarkEof r, Event.MarkEof t] }
      ch bytes is_rx := by
    rcases hcr with ⟨hrx1, hcr⟩ | ⟨hrx1, hcr⟩ <;> subst hcr <;> subst hrx1 <;> rfl
  have heq := handle_incoming_data_eq
    { arena := st.arena
      ingoing_channel_map := updateA st.ingoing_channel_map ch
        { data with rx := none, stderr := none }
      events := st.events ++ [Event.MarkEof r, Event.MarkEof t] }
    ch { data with rx := none, stderr := none } bytes is_rx hl1
  have hsink : sinkEvents { data with rx := none, stderr := none } is_rx bytes = [] := by
    unfold sinkEvents
    cases is_rx <;> rfl
  rw [hsink] at heq
  rw [hdisp, heq]
  dsimp only
  by_cases hcond : data.receiver_win_size - cntOfLen bytes.len = 0 ∧
      (arenaGet st data.outgoing_slot).receivers_count ≠ 0
  · rw [if_pos (by simpa [arenaGet] using hcond)]
    refine ⟨_, rfl, ?_, ?_, ?_⟩
    · intro sink
      dsimp only
      rw [List.append_nil, pushedTo_append]
      simp [pushedTo]
    · rw [lookupA_updateA_self _ _ _ _ hl1, if_pos hcond]
    · intro _
      dsimp only
      rw [List.append_nil, adjustEvents_append]
      simp [adjustEvents, Event.isAdjust]
  · rw [if_neg (by simpa [arenaGet] using hcond)]
    refine ⟨_, rfl, ?_, ?_, ?_⟩
    · intro sink
      dsimp only
      rw [List.append_nil]
    · rw [lookupA_updateA_self _ _ _ _ hl1, if_neg hcond]
    · intro hc
      exact absurd hc hcond

/-- C10 witness: on the witness channel, `Eof` followed by a 32768-byte
`Data` frame succeeds, pushes nothing, consumes the whole budget and still
emits the window-adjust frame (the consumer count is 1). -/
theorem C10_data_after_eof_witness :
    ∃ st1, dispatch_channel_response exState 5 ChannelResponse.Eof = Except.ok st1 ∧
      ∃ st2, dispatch_channel_response st1 5 (ChannelResponse.Data (Bytes.mk 32768)) =
          Except.ok st2 ∧
        (∀ sink : SinkId, pushedTo sink st2.events = pushedTo sink st1.events) ∧
        lookupA st2.ingoing_channel_map 5 = some
          { outgoing_slot := exData.outgoing_slot
            receiver_win_size :=
              if exData.receiver_win_size - cntOfLen (Bytes.mk 32768).len = 0 ∧
                  (arenaGet exState exData.outgoing_slot).receivers_count ≠ 0
              then exData.extend_window_size
              else exData.receiver_win_size - cntOfLen (Bytes.mk 32768).len
            extend_window_size := exData.extend_window_size
            pending_requests := exData.pending_requests
            rx := none
            stderr := none } ∧
        (exData.receiver_win_size - cntOfLen (Bytes.mk 32768).len = 0 ∧
            (arenaGet exState exData.outgoing_slot).receivers_count ≠ 0 →
          adjustEvents st2.events = adjustEvents st1.events ++
            [Event.WriteAdjustWindow exData.outgoing_slot exData.extend_window_size]) :=
  C10_data_after_eof exState 5 exData (7, true) (7, false) (Bytes.mk 32768)
    (ChannelResponse.Data (Bytes.mk 32768)) true
    (by decide) (by decide) (by decide) (Or.inl ⟨rfl, rfl⟩)

theorem lookupA_mem {α : Type} (m : List (Nat × α)) (k : Nat) (v : α)
    (h : lookupA m k = some v) : (k, v) ∈ m := by
  induction m with
  | nil => simp [lookupA] at h
  | cons p rest ih =>
    obtain ⟨k', v'⟩ := p
    by_cases hk : k' = k
    · subst hk
      have hv : v' = v := by simpa [lookupA] using h
      rw [← hv]
      exact List.mem_cons_self _ _
    · simp only [lookupA, if_neg hk] at h
      exact List.mem_cons_of_mem _ (ih h)

theorem mem_updateA {α : Type} (m : List (Nat × α)) (k : Nat) (v : α) (q : Nat × α)
    (hq : q ∈ updateA m k v) : q = (k, v) ∨ q ∈ m := by
  induction m with
  | nil => simp [updateA] at hq
  | cons p rest ih =>
    obtain ⟨k', v'⟩ := p
    by_cases hk : k' = k
    · subst hk
      simp only [updateA, if_pos rfl] at hq
      rcases List.mem_cons.1 hq with h | h
      · left
        exact h
      · right
        exact List.mem_cons_of_mem _ h
    · simp only [updateA, if_neg hk] at hq
      rcases List.mem_cons.1 hq with h | h
      · right
        rw [h]
        exact List.mem_cons_self _ _
      · rcases ih h with h2 | h2
        · left
          exact h2
        · right
          exact List.mem_cons_of_mem _ h2

theorem wfState_iff (st : ReadTaskState) :
    wfState st = true ↔
      (∀ p ∈ st.ingoing_channel_map, wfData p.2 = true) ∧
      (∀ p ∈ st.arena, wfShared p.2 = true) := by
  simp [wfState, List.all_eq_true]

theorem wfData_iff (d : ChannelIngoingData) :
    wfData d = true ↔ d.receiver_win_size ≤ u32max ∧ d.extend_window_size ≤ u32max := by
  simp [wfData]

theorem wfShared_sender (sh : SharedChannelData) (n : Nat) :
    wfShared { sh with sender_window_size := n } = wfShared sh := by
  rfl

theorem wfShared_default : wfShared default = true := by
  decide

/-- A single payload consumption keeps the state well-formed and leaves
the arena untouched. -/
theorem handle_incoming_data_preserves (st : ReadTaskState) (ch : Nat)
    (bytes : Bytes) (is_rx : Bool) (st2 : ReadTaskState)
    (hwf : wfState st = true)
    (h : handle_incoming_data st ch bytes is_rx = Except.ok st2) :
    wfState st2 = true ∧ st2.arena = st.arena := by
  cases hl : lookupA st.ingoing_channel_map ch with
  | none =>
    unfold handle_incoming_data at h
    rw [hl] at h
    exact absurd h (by simp)
  | some data =>
    rw [handle_incoming_data_eq st ch data bytes is_rx hl] at h
    have hdata : wfData data = true := by
      rw [wfState_iff] at hwf
      exact hwf.1 (ch, data) (lookupA_mem _ _ _ hl)
    rw [wfData_iff] at hdata
    by_cases hc : data.receiver_win_size - cntOfLen bytes.len = 0 ∧
        (arenaGet st data.outgoing_slot).receivers_count ≠ 0
    · rw [if_pos hc, Except.ok.injEq] at h
      subst h
      refine ⟨?_, rfl⟩
      rw [wfState_iff]
      rw [wfState_iff] at hwf
      refine ⟨?_, hwf.2⟩
      intro p hp
      rcases mem_updateA _ _ _ _ hp with hnew | hold
      · rw [hnew]
        rw [wfData_iff]
        exact ⟨hdata.2, hdata.2⟩
      · exact hwf.1 p hold
    · rw [if_neg hc, Except.ok.injEq] at h
      subst h
      refine ⟨?_, rfl⟩
      rw [wfState_iff]
      rw [wfState_iff] at hwf
      refine ⟨?_, hwf.2⟩
      intro p hp
      rcases mem_updateA _ _ _ _ hp with hnew | hold
      · rw [hnew]
        rw [wfData_iff]
        exact ⟨le_trans (Nat.sub_le _ _) hdata.1, hdata.2⟩
      · exact hwf.1 p hold

/-- Any sequence of window credits (`BytesAdjust`) and payload
consumptions (`Data` / `ExtendedData`) keeps the state well-formed and
never decreases any channel's sender window. -/
theorem processResponses_window_ops :
    ∀ (frames : List (Nat × ChannelResponse)) (st st' : ReadTaskState),
      (∀ p ∈ frames, (∃ n, p.2 = ChannelResponse.BytesAdjust n) ∨
          (∃ b, p.2 = ChannelResponse.Data b) ∨
          (∃ dt b, p.2 = ChannelResponse.ExtendedData dt b)) →
      wfState st = true → processResponses st frames = Except.ok st' →
      wfState st' = true ∧
      ∀ (slot : Nat) (sh : SharedChannelData), lookupA st.arena slot = some sh →
        ∃ sh', lookupA st'.arena slot = some sh' ∧
          sh.sender_window_size ≤ sh'.sender_window_size := by
  intro frames
  induction frames with
  | nil =>
    intro st st' _ hwf hrun
    simp only [processResponses, Except.ok.injEq] at hrun
    subst hrun
    exact ⟨hwf, fun slot sh h => ⟨sh, h, le_refl _⟩⟩
  | cons p rest ih =>
    intro st st' hops hwf hrun
    obtain ⟨ch, op⟩ := p
    have hop := hops (ch, op) (List.mem_cons_self _ _)
    simp only [processResponses] at hrun
    cases hdisp : dispatch_channel_response st ch op with
    | error e =>
      rw [hdisp] at hrun
      exact absurd hrun (by simp)
    | ok st2 =>
      rw [hdisp] at hrun
      dsimp only at hrun
      have hrest : ∀ q ∈ rest, (∃ n, q.2 = ChannelResponse.BytesAdjust n) ∨
          (∃ b, q.2 = ChannelResponse.Data b) ∨
          (∃ dt b, q.2 = ChannelResponse.ExtendedData dt b) :=
        fun q hq => hops q (List.mem_cons_of_mem _ hq)
      have hstep : wfState st2 = true ∧
          ∀ (slot : Nat) (sh : SharedChannelData), lookupA st.arena slot = some sh →
            ∃ sh', lookupA st2.arena slot = some sh' ∧
              sh.sender_window_size ≤ sh'.sender_window_size := by
        rcases hop with ⟨n, hn⟩ | ⟨b, hb⟩ | ⟨dt, b, hdb⟩
        · -- BytesAdjust
          dsimp only at hn
          subst hn
          cases hl : lookupA st.ingoing_channel_map ch with
          | none =>
            unfold dispatch_channel_response at hdisp
            rw [hl] at hdisp
            exact absurd hdisp (by simp)
          | some data =>
            rw [dispatch_bytes_adjust_eq st ch data n hl, Except.ok.injEq] at hdisp
            subst hdisp
            constructor
            · rw [wfState_iff]
              rw [wfState_iff] at hwf
              refine ⟨hwf.1, ?_⟩
              intro q hq
              rcases mem_updateA _ _ _ _ hq with hnew | hold
              · rw [hnew]
                dsimp only
                rw [wfShared_sender]
                cases hsl : lookupA st.arena data.outgoing_slot with
                | none => simp [arenaGet, hsl, wfShared_default]
                | some s =>
                  rw [arenaGet_eq _ _ _ hsl]
                  exact hwf.2 (data.outgoing_slot, s) (lookupA_mem _ _ _ hsl)
              · exact hwf.2 q hold
            · intro slot sh hsh
              by_cases hslot : slot = data.outgoing_slot
              · subst hslot
                refine ⟨{ sh with sender_window_size := sh.sender_window_size + n },
                  ?_, Nat.le_add_right _ _⟩
                dsimp only
                rw [arenaGet_eq _ _ _ hsh]
                exact lookupA_updateA_self _ _ _ _ hsh
              · refine ⟨sh, ?_, le_refl _⟩
                dsimp only
                rw [lookupA_updateA_ne _ _ _ _ hslot]
                exact hsh
        · -- Data
          dsimp only at hb
          subst hb
          have hpres := handle_incoming_data_preserves st ch b true st2 hwf hdisp
          refine ⟨hpres.1, ?_⟩
          intro slot sh hsh
          rw [hpres.2]
          exact ⟨sh, hsh, le_refl _⟩
        · -- ExtendedData
          dsimp only at hdb
          subst hdb
          cases dt with
          | Stderr =>
            have hpres := handle_incoming_data_preserves st ch b false st2 hwf hdisp
            refine ⟨hpres.1, ?_⟩
            intro slot sh hsh
            rw [hpres.2]
            exact ⟨sh, hsh, le_refl _⟩
          | NonStderr =>
            have hst2 : st2 = st := by
              have h0 := hdisp
              rw [show dispatch_channel_response st ch
                  (ChannelResponse.ExtendedData ExtendedDataType.NonStderr b) =
                  Except.ok st from rfl, Except.ok.injEq] at h0
              exact h0.symm
            subst hst2
            exact ⟨hwf, fun slot sh h => ⟨sh, h, le_refl _⟩⟩
      obtain ⟨hwf2, hmono2⟩ := hstep
      obtain ⟨hwf', hmono'⟩ := ih st2 st' hrest hwf2 hrun
      refine ⟨hwf', ?_⟩
      intro slot sh hsh
      obtain ⟨sh2, hsh2, hle2⟩ := hmono2 slot sh hsh
      obtain ⟨sh3, hsh3, hle3⟩ := hmono' slot sh2 hsh2
      exact ⟨sh3, hsh3, le_trans hle2 hle3⟩

/-- C8: (i) each consumption updates `receiver_win_size` either to the
replenished quantum or to the integer maximum of 0 and the old value minus
the delta — a saturating subtraction that can never go below zero; (ii)
every ordering of window credit and consumption operations preserves
well-formedness (both windows stay `u32` values) and never decreases any
sender window below its starting non-negative value; (iii) a payload
length exceeding `u32::MAX` yields a delta saturated at exactly
`u32::MAX`; (iv) applying a credit of `u32::MAX` twice accumulates exactly
`2·u32::MAX`, which does not overflow the 64-bit sender window counter. -/
theorem C8_window_arithmetic :
    (∀ (st : ReadTaskState) (ch : Nat) (data : ChannelIngoingData)
        (bytes : Bytes) (is_rx : Bool),
      lookupA st.ingoing_channel_map ch = some data →
      ∃ st', handle_incoming_data st ch bytes is_rx = Except.ok st' ∧
        ∃ data', lookupA st'.ingoing_channel_map ch = some data' ∧
          (data'.receiver_win_size = data.extend_window_size ∨
            (data'.receiver_win_size : Int) =
              max 0 ((data.receiver_win_size : Int) - (cntOfLen bytes.len : Int))))
    ∧
    (∀ (frames : List (Nat × ChannelResponse)) (st st' : ReadTaskState),
      (∀ p ∈ frames, (∃ n, p.2 = ChannelResponse.BytesAdjust n) ∨
          (∃ b, p.2 = ChannelResponse.Data b) ∨
          (∃ dt b, p.2 = ChannelResponse.ExtendedData dt b)) →
      wfState st = true → processResponses st frames = Except.ok st' →
      wfState st' = true ∧
      ∀ (slot : Nat) (sh : SharedChannelData), lookupA st.arena slot = some sh →
        ∃ sh', lookupA st'.arena slot = some sh' ∧
          sh.sender_window_size ≤ sh'.sender_window_size)
    ∧
    (∀ len : Nat, u32max < len → cntOfLen len = u32max)
    ∧
    (∀ (st : ReadTaskState) (ch : Nat) (data : ChannelIngoingData)
        (sh : SharedChannelData),
      lookupA st.ingoing_channel_map ch = some data →
      lookupA st.arena data.outgoing_slot = some sh →
      ∃ st', processResponses st
          [(ch, ChannelResponse.BytesAdjust u32max),
           (ch, ChannelResponse.BytesAdjust u32max)] = Except.ok st' ∧
        lookupA st'.arena data.outgoing_slot = some
          { sh with sender_window_size := sh.sender_window_size + u32max + u32max } ∧
        (sh.sender_window_size ≤ u32max →
          sh.sender_window_size + u32max + u32max < usizeSize)) := by
  refine ⟨?_, processResponses_window_ops, ?_, ?_⟩
  · intro st ch data bytes is_rx hl
    rw [handle_incoming_data_eq st ch data bytes is_rx hl]
    by_cases hc : data.receiver_win_size - cntOfLen bytes.len = 0 ∧
        (arenaGet st data.outgoing_slot).receivers_count ≠ 0
    · rw [if_pos hc]
      exact ⟨_, rfl, _, lookupA_updateA_self _ _ _ _ hl, Or.inl rfl⟩
    · rw [if_neg hc]
      refine ⟨_, rfl, _, lookupA_updateA_self _ _ _ _ hl, Or.inr ?_⟩
      dsimp only
      omega
  · intro len hlen
    unfold cntOfLen
    rw [if_neg (by omega)]
  · intro st ch data sh hl hsh
    have h1 := dispatch_bytes_adjust_eq st ch data u32max hl
    rw [arenaGet_eq st data.outgoing_slot sh hsh] at h1
    have hl2 : lookupA (updateA st.arena data.outgoing_slot
        { sh with sender_window_size := sh.sender_window_size + u32max })
        data.outgoing_slot = some { sh with sender_window_size := sh.sender_window_size + u32max } :=
      lookupA_updateA_self _ _ _ _ hsh
    have h2 := dispatch_bytes_adjust_eq
      { arena := updateA st.arena data.outgoing_slot
          { sh with sender_window_size := sh.sender_window_size + u32max }
        ingoing_channel_map := st.ingoing_channel_map
        events := st.events }
      ch data u32max hl
    rw [show arenaGet
        { arena := updateA st.arena data.outgoing_slot
            { sh with sender_window_size := sh.sender_window_size + u32max }
          ingoing_channel_map := st.ingoing_channel_map
          events := st.events }
        data.outgoing_slot = { sh with sender_window_size := sh.sender_window_size + u32max }
      from arenaGet_eq _ _ _ hl2] at h2
    refine ⟨{ arena := updateA (updateA st.arena data.outgoing_slot
                  { sh with sender_window_size := sh.sender_window_size + u32max })
                data.outgoing_slot
                { sh with sender_window_size := sh.sender_window_size + u32max + u32max }
              ingoing_channel_map := st.ingoing_channel_map
              events := st.events }, ?_, ?_, ?_⟩
    · simp only [processResponses]
      rw [h1]
      dsimp only
      rw [h2]
    · dsimp only
      have := lookupA_updateA_self (updateA st.arena data.outgoing_slot
          { sh with sender_window_size := sh.sender_window_size + u32max })
        data.outgoing_slot
        { sh with sender_window_size := sh.sender_window_size + u32max + u32max }
        { sh with sender_window_size := sh.sender_window_size + u32max } hl2
      exact this
    · intro hw
      have h32 : u32max = 4294967295 := by norm_num [u32max]
      have h64 : usizeSize = 18446744073709551616 := by norm_num [usizeSize]
      rw [h32, h64]
      rw [h32] at hw
      omega

/-- C8 witness: on the witness state (well-formed, channel 5, slot 7) a
10-byte consumption keeps the windows saturating and in range, a payload
longer than `u32::MAX` saturates the delta, and two credits of `u32::MAX`
sum without overflowing. -/
theorem C8_window_arithmetic_witness :
    (∃ st', handle_incoming_data exState 5 (Bytes.mk 10) true = Except.ok st' ∧
      ∃ data', lookupA st'.ingoing_channel_map 5 = some data' ∧
        (data'.receiver_win_size = exData.extend_window_size ∨
          (data'.receiver_win_size : Int) =
            max 0 ((exData.receiver_win_size : Int) - (cntOfLen (Bytes.mk 10).len : Int)))) ∧
    (∃ st', processResponses exState [(5, ChannelResponse.Data (Bytes.mk 10))] =
        Except.ok st' ∧ wfState st' = true) ∧
    cntOfLen (u32max + 5) = u32max ∧
    (∃ st', processResponses exState
        [(5, ChannelResponse.BytesAdjust u32max), (5, ChannelResponse.BytesAdjust u32max)] =
          Except.ok st' ∧
      lookupA st'.arena exData.outgoing_slot = some
        { exShared with sender_window_size := exShared.sender_window_size + u32max + u32max } ∧
      (exShared.sender_window_size ≤ u32max →
        exShared.sender_window_size + u32max + u32max < usizeSize)) := by
  refine ⟨?_, ?_, ?_, ?_⟩
  · exact C8_window_arithmetic.1 exState 5 exData (Bytes.mk 10) true (by decide)
  · exact ⟨_, rfl,
      (C8_window_arithmetic.2.1 [(5, ChannelResponse.Data (Bytes.mk 10))] exState _
        (by simp) (by decide) rfl).1⟩
  · exact C8_window_arithmetic.2.2.1 (u32max + 5) (by omega)
  · exact C8_window_arithmetic.2.2.2 exState 5 exData exShared (by decide) (by decide)

end ProxyClient
